import Mathlib

/-
  Verification development for the MERN task backend (src/backend/index.js).

  The file shallowly embeds the data model and the query logic of the six
  HTTP endpoints.  Dates are modelled as calendar dates compared through a
  numeric code (year, then month, then day), which coincides with the
  chronological order used by the Mongo comparisons on the stored Date
  values.  Prices are modelled as integers.  Regular-expression search is
  modelled for search strings without regex metacharacters, which makes
  RegExp(search, "i") a case-insensitive substring test, exactly how the
  specification reads the handler.

  The find call of the list endpoint is modelled through the Mongoose
  query cast layer: a regex condition is only handled on String schema
  paths, so the price regex condition of the list filter fails to cast on
  the Number path and the find rejects for every request, the same cast
  layer that rejects the invalid dates of an out-of-range month.
-/

/-- Calendar date of a sale, as stored in the dateOfSale field. -/
structure SaleDate where
  year : Nat
  month : Nat
  day : Nat
deriving DecidableEq

/-- Numeric code of a date; for calendar dates (month, day below 100) the
order of codes is the chronological order the store compares dates by. -/
def SaleDate.code (d : SaleDate) : Nat :=
  (d.year * 100 + d.month) * 100 + d.day

/-- The Transaction document, with the fields of the Mongoose schema
(title, description, price, dateOfSale, sold, category). -/
structure Transaction where
  title : String
  description : String
  price : Int
  dateOfSale : SaleDate
  sold : Bool
  category : String
deriving DecidableEq

/-- Start of the month interval: the handlers build it from the template
string 2023-month-01, hence the fixed year 2023 and day 1. -/
def monthStart (m : Nat) : SaleDate :=
  ⟨2023, m, 1⟩

/-- End of the month interval: endDate.setMonth(endDate.getMonth() + 1) in
JavaScript rolls December over to January of 2024 and otherwise moves to
the next month of 2023. -/
def monthEnd (m : Nat) : SaleDate :=
  if m = 12 then ⟨2024, 1, 1⟩ else ⟨2023, m + 1, 1⟩

/-- The dateOfSale filter shared by every endpoint:
dateOfSale greater-or-equal startDate and strictly below endDate. -/
def inMonth (m : Nat) (d : SaleDate) : Bool :=
  decide ((monthStart m).code ≤ d.code) && decide (d.code < (monthEnd m).code)

/-- Records of the store whose dateOfSale lies in the month interval; this
is the match stage shared by the list, statistics, bar-chart and pie-chart
queries. -/
def monthRecords (store : List Transaction) (m : Nat) : List Transaction :=
  store.filter (fun r => inMonth m r.dateOfSale)

/-- Pattern pat matches at the head of the text. -/
def matchesAt : List Char → List Char → Bool
  | [], _ => true
  | _ :: _, [] => false
  | a :: as, b :: bs => a = b && matchesAt as bs

/-- Pattern pat occurs somewhere inside the text (substring test). -/
def occursIn (pat : List Char) : List Char → Bool
  | [] => matchesAt pat []
  | c :: tl => matchesAt pat (c :: tl) || occursIn pat tl

/-- RegExp(search, "i") applied to a string field: case-insensitive
substring containment (search strings are taken metacharacter-free). -/
def ciContains (s pat : String) : Bool :=
  occursIn (pat.data.map Char.toLower) (s.data.map Char.toLower)

/-- A Mongo query value, as far as the price filter needs: the stored
price is numeric, while a regex condition only ever matches strings. -/
inductive BsonValue where
  | str (s : String)
  | num (n : Int)
deriving DecidableEq

/-- Hypothetical server-side semantics of a plain regex condition on a
stored value: MongoDB matches a regex only against string-typed values,
so a numeric field never satisfies it.  In the program this stage is
never reached for the list filter, because the Mongoose cast of the
price condition fails first (see findTransactionsResult below). -/
def regexCondMatches (pat : String) : BsonValue → Bool
  | .str s => occursIn pat.data s.data
  | .num _ => false

/-- The or-filter of the list query, in its hypothetical server-side
reading: title regex, description regex, or the regex condition on the
numeric price field. -/
def searchCond (search : String) (r : Transaction) : Bool :=
  ciContains r.title search || ciContains r.description search ||
    regexCondMatches search (BsonValue.num r.price)

/-- The record set the filter of the list handler would select on the
server: dateOfSale in the month interval and the or-filter.  The live
endpoint never produces it, since its find rejects at cast time; it
over-approximates anything the endpoint could ever return, which is how
the interval-containment theorem uses it. -/
def findTransactions (store : List Transaction) (m : Nat) (search : String) :
    List Transaction :=
  store.filter (fun r => inMonth m r.dateOfSale && searchCond search r)

/-- skip((page - 1) * perPage).limit(perPage). -/
def paginate (l : List Transaction) (page perPage : Nat) : List Transaction :=
  (l.drop ((page - 1) * perPage)).take perPage

/-- The page the list filter would produce server-side for a valid
month: filtered records, paginated.  Never returned by the program (the
find rejects before the server is reached); an upper bound on any list
response. -/
def transactionsQuery (store : List Transaction) (m : Nat) (search : String)
    (page perPage : Nat) : List Transaction :=
  paginate (findTransactions store m search) page perPage

/-- Formalisation of the wording of claim C8: the price clause is read as
matching the search string as a substring of the decimal string form of
the price. -/
def searchCondClaim (search : String) (r : Transaction) : Bool :=
  ciContains r.title search || ciContains r.description search ||
    occursIn search.data (toString r.price).data

/-- List result under the reading of claim C8. -/
def transactionsClaimQuery (store : List Transaction) (m : Nat)
    (search : String) (page perPage : Nat) : List Transaction :=
  paginate (store.filter (fun r => inMonth m r.dateOfSale && searchCondClaim search r))
    page perPage

/-- Mongoose schema types of the Transaction model paths. -/
inductive SchemaType where
  | string
  | number
  | date
  | boolean
deriving DecidableEq

/-- Schema type of each path, per the transactionSchema declaration. -/
def schemaType : String → Option SchemaType
  | "title" => some .string
  | "description" => some .string
  | "price" => some .number
  | "dateOfSale" => some .date
  | "sold" => some .boolean
  | "category" => some .string
  | _ => none

/-- Mongoose behaviour: only SchemaString registers a conditional
handler for the regex operator (and accepts RegExp values); on every
other schema type the cast of a regex condition throws a CastError,
which rejects the whole find call before anything reaches the server. -/
def regexCastAccepted : SchemaType → Bool
  | .string => true
  | _ => false

/-- One condition of the list query filter, by shape: a RegExp literal
value (title, description), the regex operator form (price), or the
gte-lt date pair (dateOfSale). -/
inductive FilterCond where
  | regexValue
  | regexOp
  | dateRange
deriving DecidableEq

/-- The filter of the Transaction.find in the live list handler, path by
path: the dateOfSale range and the or-list over title, description and
price. -/
def listFilter : List (String × FilterCond) :=
  [("dateOfSale", .dateRange), ("title", .regexValue),
   ("description", .regexValue), ("price", .regexOp)]

/-- Mongoose cast of one filter condition against the schema: both regex
shapes are handled only on String paths, and the date range casts only
when the dates are valid. -/
def condCastOk (datesValid : Bool) : String × FilterCond → Bool
  | (path, .regexValue) => ((schemaType path).map regexCastAccepted).getD false
  | (path, .regexOp) => ((schemaType path).map regexCastAccepted).getD false
  | (_, .dateRange) => datesValid

/-- Mongoose cast of the whole list filter: every condition must cast.
The price condition carries the regex operator on the Number path, so
this is false even with valid dates. -/
def listFindCastOk (datesValid : Bool) : Bool :=
  listFilter.all (condCastOk datesValid)

/-- Result of the Transaction.find of the live list handler: the cast of
the filter fails on the price regex condition, so the find rejects for
every store, month, search and page, and the hypothetical server-side
page is never produced. -/
def findTransactionsResult (store : List Transaction) (m : Nat) (search : String)
    (page perPage : Nat) : Except Unit (List Transaction) :=
  if listFindCastOk true then
    .ok (transactionsQuery store m search page perPage)
  else .error ()

/-- Response body of GET /statistics. -/
structure Stats where
  totalAmount : Int
  soldItems : Nat
  unsoldItems : Nat
deriving DecidableEq

/-- JavaScript v or-or 0 on a number: 0 stays 0, anything else stays
itself. -/
def jsOrZeroI (v : Int) : Int :=
  if v = 0 then 0 else v

/-- JavaScript v or-or 0 on a count. -/
def jsOrZeroN (v : Nat) : Nat :=
  if v = 0 then 0 else v

/-- The aggregate stage of /statistics: match on the month interval, then
group with totalAmount the sum of price and soldItems the sum of the
conditional sold-to-1 projection.  With no matching document the group
stage emits nothing, hence the Option. -/
def statisticsAgg (store : List Transaction) (m : Nat) : Option (Int × Nat) :=
  let l := monthRecords store m
  if l.isEmpty then none
  else some ((l.map (fun r => r.price)).sum,
             (l.map (fun r => if r.sold then 1 else 0)).sum)

/-- Response of GET /statistics: the two aggregate fields read through the
optional-chaining-or-zero idiom of the handler, and unsoldItems from
countDocuments over sold false in the month interval. -/
def statistics (store : List Transaction) (m : Nat) : Stats :=
  { totalAmount := jsOrZeroI (((statisticsAgg store m).map (fun g => g.1)).getD 0)
    soldItems := jsOrZeroN (((statisticsAgg store m).map (fun g => g.2)).getD 0)
    unsoldItems :=
      (store.filter (fun r => decide (r.sold = false) && inMonth m r.dateOfSale)).length }

/-- Identifier of a bar-chart bucket: the lower boundary of one of the
price sub-ranges of the bucket stage, or the default bucket whose id is
the string 901-above. -/
inductive BucketId where
  | bound (lo : Nat)
  | overflow
deriving DecidableEq

/-- The bucket stage of /bar-chart, groupBy price with boundaries
0, 100, ..., 900, Infinity.  A price in a half-open range between two
consecutive boundaries gets the lower one as id; the final range is
900 up to Infinity; only a price below every boundary, that is a negative
price, falls through to the default bucket 901-above. -/
def bucketOf (p : Int) : BucketId :=
  if p < 0 then .overflow
  else if p < 100 then .bound 0
  else if p < 200 then .bound 100
  else if p < 300 then .bound 200
  else if p < 400 then .bound 300
  else if p < 500 then .bound 400
  else if p < 600 then .bound 500
  else if p < 700 then .bound 600
  else if p < 800 then .bound 700
  else if p < 900 then .bound 800
  else .bound 900

/-- All bucket identifiers of the bucket stage, in boundary order. -/
def allBuckets : List BucketId :=
  [.bound 0, .bound 100, .bound 200, .bound 300, .bound 400, .bound 500,
   .bound 600, .bound 700, .bound 800, .bound 900, .overflow]

/-- Number of records of the month interval falling into a bucket. -/
def bucketCount (store : List Transaction) (m : Nat) (b : BucketId) : Nat :=
  ((monthRecords store m).filter (fun r => decide (bucketOf r.price = b))).length

/-- Response of GET /bar-chart: one entry per bucket that holds at least
one document (the bucket stage emits no entry for an empty bucket). -/
def barChart (store : List Transaction) (m : Nat) : List (BucketId × Nat) :=
  (allBuckets.map (fun b => (b, bucketCount store m b))).filter
    (fun e => decide (e.2 ≠ 0))

/-- Response of GET /pie-chart: group by category with count the sum of
1, one entry per distinct category value of the month interval. -/
def pieChart (store : List Transaction) (m : Nat) : List (String × Nat) :=
  ((monthRecords store m).map (fun r => r.category)).dedup.map
    (fun c => (c, ((monthRecords store m).filter
      (fun r => decide (r.category = c))).length))

/-- Response body of GET /combined-data. -/
structure CombinedData where
  statistics : Stats
  barChart : List (BucketId × Nat)
  pieChart : List (String × Nat)
deriving DecidableEq

/-- GET /combined-data: Promise.all over the three sub-requests resolves
with the merged object when every sub-request succeeds; if any rejects,
the catch block answers the generic 500, modelled as the error case. -/
def combinedData (s : Except Unit Stats) (b : Except Unit (List (BucketId × Nat)))
    (p : Except Unit (List (String × Nat))) : Except Unit CombinedData :=
  match s, b, p with
  | .ok s, .ok b, .ok p => .ok ⟨s, b, p⟩
  | _, _, _ => .error ()

/-- Tags of the route handlers, in the order app.get registers them in
index.js; the same path /transactions is registered twice. -/
inductive HandlerTag where
  | initializeDb
  | transactionsFirst
  | statisticsH
  | barChartH
  | pieChartH
  | combinedDataH
  | transactionsSecond
deriving DecidableEq

/-- The route table in registration order. -/
def routes : List (String × HandlerTag) :=
  [("/initialize-db", .initializeDb),
   ("/transactions", .transactionsFirst),
   ("/statistics", .statisticsH),
   ("/bar-chart", .barChartH),
   ("/pie-chart", .pieChartH),
   ("/combined-data", .combinedDataH),
   ("/transactions", .transactionsSecond)]

/-- Express dispatch: a request goes to the first registered route whose
path matches (no handler here calls next, so later matches never run). -/
def dispatch (path : String) : Option HandlerTag :=
  ((routes.filter (fun rt => rt.1 = path)).head?).map (fun rt => rt.2)

/-- Body of a /transactions response. -/
inductive TxBody where
  | records (rs : List Transaction)
  | errorJson (msg : String)
  | errorText (msg : String)
deriving DecidableEq

/-- Observable outcome of a /transactions handler: HTTP status, body, and
how many times the handler invoked a find on the store. -/
structure TxResponse where
  status : Nat
  body : TxBody
  findCalls : Nat
deriving DecidableEq

/-- The first, live GET /transactions handler.  It performs no month
validation: it builds the dates and always invokes Transaction.find.  For
a missing month or a numeric month outside 1..12 the template string
2023-month-01 parses to an Invalid Date and the find rejects when the
filter dates are cast; for a valid month the find still rejects, at the
cast of the price regex condition (findTransactionsResult).  Either way
the catch block answers the 500 text — never 400, and never a record
page. -/
def transactionsFirstHandler (store : List Transaction) (month? : Option Int)
    (search : String) (page perPage : Nat) : TxResponse :=
  match month? with
  | none => ⟨500, .errorText "Error fetching transactions", 1⟩
  | some m =>
    if 1 ≤ m ∧ m ≤ 12 then
      match findTransactionsResult store m.toNat search page perPage with
      | .ok rs => ⟨200, .records rs, 1⟩
      | .error _ => ⟨500, .errorText "Error fetching transactions", 1⟩
    else ⟨500, .errorText "Error fetching transactions", 1⟩

/-- The month guard of the second, dead GET /transactions handler:
not-month or month below 1 or month above 12, under the JavaScript
string-to-number coercion of the comparisons. -/
def monthParamInvalid (month? : Option Int) : Bool :=
  match month? with
  | none => true
  | some m => decide (m < 1) || decide (m > 12)

/-- The second GET /transactions handler (registered after the first one
and therefore unreachable): rejects an invalid month with 400 and the
structured error body before any store access, and otherwise invokes the
same find as the first handler, which rejects at the price regex cast. -/
def transactionsSecondHandler (store : List Transaction) (month? : Option Int)
    (search : String) (page perPage : Nat) : TxResponse :=
  if monthParamInvalid month? then
    ⟨400, .errorJson "Invalid month parameter", 0⟩
  else
    match month? with
    | none => ⟨500, .errorText "Error fetching transactions", 1⟩
    | some m =>
      match findTransactionsResult store m.toNat search page perPage with
      | .ok rs => ⟨200, .records rs, 1⟩
      | .error _ => ⟨500, .errorText "Error fetching transactions", 1⟩

/-- A one-record store whose record has price 901 in January, used to
separate the bucket stage from the claimed bucket boundaries. -/
def cexBarStore : List Transaction :=
  [⟨"item", "desc", 901, ⟨2023, 1, 15⟩, true, "cat"⟩]

/-- A one-record store whose record has price 150 in January and a title
and description that do not contain the digits 150. -/
def cexSearchStore : List Transaction :=
  [⟨"alpha", "beta", 150, ⟨2023, 1, 10⟩, true, "cat"⟩]

/-- A small concrete December store used by the witnesses. -/
def wStore : List Transaction :=
  [⟨"gadget", "red gadget", 150, ⟨2023, 12, 25⟩, true, "tools"⟩,
   ⟨"widget", "blue widget", 950, ⟨2023, 12, 3⟩, false, "decor"⟩]

/-- An empty pattern occurs in every text, as the empty regular
expression matches everywhere. -/
theorem occursIn_nil (t : List Char) : occursIn [] t = true := by
  cases t <;> simp [occursIn, matchesAt]

/-- The case-insensitive containment test with the empty search string
accepts every string. -/
theorem ciContains_empty (s : String) : ciContains s "" = true := by
  have h : ("" : String).data = [] := rfl
  simp [ciContains, h, occursIn_nil]

/-- Splitting the length of a list by a boolean predicate. -/
theorem length_filter_bool_split {α : Type} (l : List α) (p : α → Bool) :
    (l.filter p).length + (l.filter (fun a => !p a)).length = l.length := by
  induction l with
  | nil => rfl
  | cons a l ih => by_cases h : p a <;> simp [List.filter_cons, h] <;> omega

/-- Summing the indicator of a sold-style condition counts the records
satisfying it. -/
theorem sum_ite_eq_length_filter {α : Type} (l : List α) (p : α → Bool) :
    (l.map (fun a => if p a then 1 else 0)).sum = (l.filter p).length := by
  induction l with
  | nil => rfl
  | cons a l ih => by_cases h : p a <;> simp [List.filter_cons, h, ih] <;> omega

/-- Pointwise sums of mapped lists add. -/
theorem sum_map_add {β : Type} (bs : List β) (g h : β → Nat) :
    (bs.map (fun b => g b + h b)).sum = (bs.map g).sum + (bs.map h).sum := by
  induction bs with
  | nil => rfl
  | cons b bs ih => simp [ih]; omega

/-- The indicator of a key absent from the key list sums to zero. -/
theorem sum_indicator_zero {β : Type} [DecidableEq β] (x : β) (bs : List β) (h : x ∉ bs) :
    (bs.map (fun b => if x = b then 1 else 0)).sum = 0 := by
  induction bs with
  | nil => rfl
  | cons b bs ih =>
    simp only [List.mem_cons, not_or] at h
    simp [h.1, ih h.2]

/-- The indicator of a key present in a duplicate-free key list sums to
one. -/
theorem sum_indicator_one {β : Type} [DecidableEq β] (x : β) (bs : List β)
    (hnd : bs.Nodup) (hx : x ∈ bs) :
    (bs.map (fun b => if x = b then 1 else 0)).sum = 1 := by
  induction bs with
  | nil => cases hx
  | cons b bs ih =>
    rcases List.mem_cons.mp hx with h | h
    · subst h
      have hnb : x ∉ bs := (List.nodup_cons.mp hnd).1
      simp [sum_indicator_zero x bs hnb]
    · have hne : x ≠ b := fun he => (List.nodup_cons.mp hnd).1 (he ▸ h)
      simp [hne, ih (List.nodup_cons.mp hnd).2 h]

/-- Counting a list by the fibers of a key function over a duplicate-free
covering key list recovers the length: the grouping and bucketing stages
count every document exactly once. -/
theorem sum_counts_eq_length {α β : Type} [DecidableEq β] (f : α → β) :
    ∀ (l : List α) (bs : List β), bs.Nodup → (∀ a, a ∈ l → f a ∈ bs) →
    (bs.map (fun b => (l.filter (fun a => decide (f a = b))).length)).sum = l.length := by
  intro l
  induction l with
  | nil => intro bs _ _; simp
  | cons a l ih =>
    intro bs hnd hcov
    have hstep : ∀ b : β, ((a :: l).filter (fun x => decide (f x = b))).length
        = (if f a = b then 1 else 0) + (l.filter (fun x => decide (f x = b))).length := by
      intro b
      by_cases h : f a = b <;> simp [List.filter_cons, h] <;> omega
    simp only [hstep]
    rw [sum_map_add, sum_indicator_one (f a) bs hnd (hcov a (List.mem_cons_self a l)),
      ih bs hnd (fun x hx => hcov x (List.mem_cons_of_mem a hx))]
    simp [Nat.add_comm]

/-- Dropping the zero-count entries of a keyed count list does not change
the total count. -/
theorem sum_snd_filter_pos {β : Type} (xs : List (β × Nat)) :
    ((xs.filter (fun e => decide (e.2 ≠ 0))).map (fun e => e.2)).sum
      = (xs.map (fun e => e.2)).sum := by
  simp only [ne_eq, decide_not]
  induction xs with
  | nil => rfl
  | cons x xs ih =>
    by_cases hx : x.2 = 0
    · simp [List.filter_cons, hx, ih]
    · simp [List.filter_cons, hx, ih]

/-- Every price falls into one of the listed buckets of the bucket
stage. -/
theorem bucketOf_mem_allBuckets (p : Int) : bucketOf p ∈ allBuckets := by
  unfold bucketOf allBuckets
  split_ifs <;> simp

/-- The default bucket 901-above receives exactly the negative prices,
the only values outside every boundary of the bucket stage. -/
theorem bucketOf_overflow_iff (p : Int) :
    bucketOf p = BucketId.overflow ↔ p < 0 := by
  unfold bucketOf
  split_ifs <;> simp <;> omega

/-- The last bucket of the bucket stage, with id 900, receives every
price from 900 upward. -/
theorem bucketOf_last_iff (p : Int) :
    bucketOf p = BucketId.bound 900 ↔ 900 ≤ p := by
  unfold bucketOf
  split_ifs <;> simp <;> omega

set_option maxHeartbeats 1000000 in
/-- The k-th bounded bucket, for k up to 8, receives the half-open price
range of width 100 starting at 100 times k. -/
theorem bucketOf_bound_iff (p : Int) (k : Nat) (hk : k ≤ 8) :
    bucketOf p = BucketId.bound (100 * k)
      ↔ (100 * (k : Int) ≤ p ∧ p < 100 * ((k : Int) + 1)) := by
  unfold bucketOf
  split_ifs <;> simp only [BucketId.bound.injEq, iff_true, iff_false, true_iff, false_iff] <;>
    omega

/-- Field description of the statistics response: the aggregate plus the
or-zero reads give the price sum, the sold count and the unsold count
over the month interval. -/
theorem statistics_fields (store : List Transaction) (m : Nat) :
    (statistics store m).totalAmount = ((monthRecords store m).map (fun r => r.price)).sum
    ∧ (statistics store m).soldItems
        = ((monthRecords store m).filter (fun r => r.sold)).length
    ∧ (statistics store m).unsoldItems
        = ((monthRecords store m).filter (fun r => !r.sold)).length := by
  have hb : ∀ b : Bool, decide (b = false) = !b := by decide
  refine ⟨?_, ?_, ?_⟩
  · unfold statistics statisticsAgg jsOrZeroI
    by_cases h : (monthRecords store m).isEmpty
    · rw [List.isEmpty_iff] at h
      simp [h]
    · simp only [h, if_false, Option.map_some, Option.getD_some]
      by_cases hv : ((monthRecords store m).map (fun r => r.price)).sum = 0 <;> simp [hv]
  · unfold statistics statisticsAgg jsOrZeroN
    by_cases h : (monthRecords store m).isEmpty
    · rw [List.isEmpty_iff] at h
      simp [h]
    · simp only [h, if_false, Option.map_some, Option.getD_some]
      rw [sum_ite_eq_length_filter]
      by_cases hv : ((monthRecords store m).filter (fun r => r.sold)).length = 0 <;>
        simp [hv]
  · unfold statistics monthRecords
    rw [List.filter_filter]
    simp only [hb]

/-- C1: the claim says a GET /transactions request with a missing month or
a month outside 1..12 is rejected with 400 and the structured error body,
with no store query.  The code registers two handlers for /transactions
and Express dispatches to the first one, which never validates the month:
at month 13 and at a missing month it invokes the find (which fails on
the invalid dates, yielding the 500 text error) and never answers 400.
The validating handler that would answer 400 before any store access is
registered second and is unreachable dead code. -/
theorem transactions_month_validation_unreachable :
    dispatch "/transactions" = some HandlerTag.transactionsFirst
    ∧ (transactionsFirstHandler [] (some 13) "" 1 10).status = 500
    ∧ ¬(transactionsFirstHandler [] (some 13) "" 1 10).status = 400
    ∧ (transactionsFirstHandler [] (some 13) "" 1 10).findCalls = 1
    ∧ (transactionsFirstHandler [] none "" 1 10).status = 500
    ∧ (transactionsFirstHandler [] none "" 1 10).findCalls = 1
    ∧ transactionsSecondHandler [] (some 13) "" 1 10
        = ⟨400, TxBody.errorJson "Invalid month parameter", 0⟩
    ∧ transactionsSecondHandler [] none "" 1 10
        = ⟨400, TxBody.errorJson "Invalid month parameter", 0⟩ := by
  decide

/-- C2: for a valid month, every record selected by the shared month
filter (the match stage of the statistics, bar-chart and pie-chart
queries) and every record returned by the list query has its sale date in
the half-open interval from the first of the month to the first of the
next month, and for December the interval end is the first of January
2024. -/
theorem month_interval_bounds (store : List Transaction) (m : Nat) (search : String)
    (page perPage : Nat) (hm1 : 1 ≤ m) (hm2 : m ≤ 12) :
    (∀ r ∈ monthRecords store m,
        (monthStart m).code ≤ r.dateOfSale.code ∧ r.dateOfSale.code < (monthEnd m).code)
    ∧ (∀ r ∈ transactionsQuery store m search page perPage,
        (monthStart m).code ≤ r.dateOfSale.code ∧ r.dateOfSale.code < (monthEnd m).code)
    ∧ (m = 12 → monthEnd m = ⟨2024, 1, 1⟩) := by
  refine ⟨?_, ?_, ?_⟩
  · intro r hr
    unfold monthRecords at hr
    have h := (List.mem_filter.mp hr).2
    simpa [inMonth] using h
  · intro r hr
    have hr1 : r ∈ findTransactions store m search := by
      unfold transactionsQuery paginate at hr
      exact List.drop_subset _ _ (List.take_subset _ _ hr)
    unfold findTransactions at hr1
    have h := (List.mem_filter.mp hr1).2
    rw [Bool.and_eq_true] at h
    simpa [inMonth] using h.1
  · intro h12
    simp [monthEnd, h12]

/-- C2 witness: the December record of the concrete store is returned and
its date sits inside the December interval ending on 2024-01-01. -/
theorem month_interval_bounds_witness :
    (monthStart 12).code ≤ (SaleDate.mk 2023 12 25).code
    ∧ (SaleDate.mk 2023 12 25).code < (monthEnd 12).code :=
  (month_interval_bounds wStore 12 "" 1 10 (by decide) (by decide)).1
    ⟨"gadget", "red gadget", 150, ⟨2023, 12, 25⟩, true, "tools"⟩ (by decide)

/-- C3: for a valid month, the statistics response carries the sum of the
prices of the records in the month interval, the count of sold records in
the interval, and the count of unsold records in the interval, and all
three are 0 when no record falls in the interval. -/
theorem statistics_fields_correct (store : List Transaction) (m : Nat)
    (hm1 : 1 ≤ m) (hm2 : m ≤ 12) :
    (statistics store m).totalAmount
        = ((monthRecords store m).map (fun r => r.price)).sum
    ∧ (statistics store m).soldItems
        = ((monthRecords store m).filter (fun r => r.sold)).length
    ∧ (statistics store m).unsoldItems
        = ((monthRecords store m).filter (fun r => !r.sold)).length
    ∧ (monthRecords store m = [] → statistics store m = ⟨0, 0, 0⟩) := by
  have hf := statistics_fields store m
  refine ⟨hf.1, hf.2.1, hf.2.2, ?_⟩
  intro hemp
  have h1 : (statistics store m).totalAmount = 0 := by rw [hf.1, hemp]; rfl
  have h2 : (statistics store m).soldItems = 0 := by rw [hf.2.1, hemp]; rfl
  have h3 : (statistics store m).unsoldItems = 0 := by rw [hf.2.2, hemp]; rfl
  calc statistics store m
      = ⟨(statistics store m).totalAmount, (statistics store m).soldItems,
          (statistics store m).unsoldItems⟩ := rfl
    _ = ⟨0, 0, 0⟩ := by rw [h1, h2, h3]

/-- C3 witness: the statistics of the concrete December store. -/
theorem statistics_fields_correct_witness :
    (statistics wStore 12).totalAmount
        = ((monthRecords wStore 12).map (fun r => r.price)).sum
    ∧ (statistics wStore 12).soldItems
        = ((monthRecords wStore 12).filter (fun r => r.sold)).length
    ∧ (statistics wStore 12).unsoldItems
        = ((monthRecords wStore 12).filter (fun r => !r.sold)).length
    ∧ (monthRecords wStore 12 = [] → statistics wStore 12 = ⟨0, 0, 0⟩) :=
  statistics_fields_correct wStore 12 (by decide) (by decide)

/-- C4: for a valid month, the sold and unsold counts of the statistics
response add up to the number of records in the month interval. -/
theorem statistics_partition (store : List Transaction) (m : Nat)
    (hm1 : 1 ≤ m) (hm2 : m ≤ 12) :
    (statistics store m).soldItems + (statistics store m).unsoldItems
      = (monthRecords store m).length := by
  have hf := statistics_fields store m
  rw [hf.2.1, hf.2.2]
  exact length_filter_bool_split (monthRecords store m) (fun r => r.sold)

/-- C4 witness: the partition equation on the concrete December store. -/
theorem statistics_partition_witness :
    (statistics wStore 12).soldItems + (statistics wStore 12).unsoldItems
      = (monthRecords wStore 12).length :=
  statistics_partition wStore 12 (by decide) (by decide)

/-- C5 counterexample: the claim places every record with price at least
901 in the overflow bucket.  In the code the boundaries of the bucket
stage end with 900 and Infinity, so the record of price 901 falls in the
regular bucket with id 900 and the default bucket 901-above stays empty:
the bar chart for the one-record store is a single entry for bucket 900. -/
theorem barchart_overflow_counterexample :
    (¬ ∀ r ∈ monthRecords cexBarStore 1, 901 ≤ r.price
        → bucketOf r.price = BucketId.overflow)
    ∧ barChart cexBarStore 1 = [(BucketId.bound 900, 1)] := by
  constructor
  · decide
  · decide

/-- C5 amended: for a valid month, the bar chart counts the records of
the month interval by price over the buckets of width 100 from 0 to 900,
with a final bucket taking every price from 900 upward (not 901) and the
default bucket 901-above taking exactly the prices below 0; every record
lies in exactly one bucket and the bucket counts sum to the number of
records in the interval. -/
theorem barchart_buckets_amended (store : List Transaction) (m : Nat)
    (hm1 : 1 ≤ m) (hm2 : m ≤ 12) :
    (∀ p : Int, (bucketOf p = BucketId.overflow ↔ p < 0)
      ∧ (bucketOf p = BucketId.bound 900 ↔ 900 ≤ p)
      ∧ (∀ k : Nat, k ≤ 8 → (bucketOf p = BucketId.bound (100 * k)
            ↔ (100 * (k : Int) ≤ p ∧ p < 100 * ((k : Int) + 1)))))
    ∧ (∀ r ∈ monthRecords store m, ∃! b, b ∈ allBuckets ∧ bucketOf r.price = b)
    ∧ ((barChart store m).map (fun e => e.2)).sum = (monthRecords store m).length := by
  refine ⟨?_, ?_, ?_⟩
  · intro p
    exact ⟨bucketOf_overflow_iff p, bucketOf_last_iff p,
      fun k hk => bucketOf_bound_iff p k hk⟩
  · intro r _
    refine ⟨bucketOf r.price, ⟨bucketOf_mem_allBuckets r.price, rfl⟩, ?_⟩
    intro y hy
    exact hy.2.symm
  · unfold barChart
    rw [sum_snd_filter_pos, List.map_map]
    show (allBuckets.map (fun b => bucketCount store m b)).sum
        = (monthRecords store m).length
    unfold bucketCount
    exact sum_counts_eq_length (fun r => bucketOf r.price) (monthRecords store m)
      allBuckets (by decide) (fun a _ => bucketOf_mem_allBuckets a.price)

/-- C5 amended witness: the bucket counts of the concrete December store
sum to its interval size. -/
theorem barchart_buckets_amended_witness :
    ((barChart wStore 12).map (fun e => e.2)).sum = (monthRecords wStore 12).length :=
  (barchart_buckets_amended wStore 12 (by decide) (by decide)).2.2

/-- C6: for a valid month, the pie chart has exactly one entry per
distinct category present among the records of the month interval, each
entry counts the interval records of its category, and the counts sum to
the number of records in the interval. -/
theorem piechart_groups (store : List Transaction) (m : Nat)
    (hm1 : 1 ≤ m) (hm2 : m ≤ 12) :
    ((pieChart store m).map (fun e => e.1)).Nodup
    ∧ (∀ c : String, (∃ n, (c, n) ∈ pieChart store m)
        ↔ c ∈ (monthRecords store m).map (fun r => r.category))
    ∧ (∀ c n, (c, n) ∈ pieChart store m
        → n = ((monthRecords store m).filter (fun r => decide (r.category = c))).length)
    ∧ ((pieChart store m).map (fun e => e.2)).sum = (monthRecords store m).length := by
  refine ⟨?_, ?_, ?_, ?_⟩
  · have h : (pieChart store m).map (fun e => e.1)
        = ((monthRecords store m).map (fun r => r.category)).dedup := by
      unfold pieChart
      rw [List.map_map]
      exact List.map_id' _
    rw [h]
    exact List.nodup_dedup _
  · intro c
    constructor
    · rintro ⟨n, hn⟩
      unfold pieChart at hn
      obtain ⟨c2, hc2, heq⟩ := List.mem_map.mp hn
      simp only [Prod.mk.injEq] at heq
      obtain ⟨rfl, rfl⟩ := heq
      exact List.mem_dedup.mp hc2
    · intro hc
      refine ⟨((monthRecords store m).filter (fun r => decide (r.category = c))).length, ?_⟩
      unfold pieChart
      exact List.mem_map_of_mem _ (List.mem_dedup.mpr hc)
  · intro c n hn
    unfold pieChart at hn
    obtain ⟨c2, hc2, heq⟩ := List.mem_map.mp hn
    simp only [Prod.mk.injEq] at heq
    obtain ⟨rfl, rfl⟩ := heq
    rfl
  · unfold pieChart
    rw [List.map_map]
    show ((((monthRecords store m).map (fun r => r.category)).dedup).map
        (fun c => ((monthRecords store m).filter
          (fun r => decide (r.category = c))).length)).sum
      = (monthRecords store m).length
    exact sum_counts_eq_length (fun r => r.category) (monthRecords store m) _
      (List.nodup_dedup _) (fun a ha => List.mem_dedup.mpr (List.mem_map_of_mem _ ha))

/-- C6 witness: the category counts of the concrete December store sum to
its interval size. -/
theorem piechart_groups_witness :
    ((pieChart wStore 12).map (fun e => e.2)).sum = (monthRecords wStore 12).length :=
  (piechart_groups wStore 12 (by decide) (by decide)).2.2.2

/-- C7: the combined endpoint resolves the three sub-requests for the
same month and merges their payloads into the object with keys
statistics, barChart and pieChart; whenever any sub-request fails, the
combined response is the generic server error. -/
theorem combined_data_merge :
    (∀ (store : List Transaction) (m : Nat),
        combinedData (Except.ok (statistics store m)) (Except.ok (barChart store m))
          (Except.ok (pieChart store m))
          = Except.ok ⟨statistics store m, barChart store m, pieChart store m⟩)
    ∧ (∀ (s : Except Unit Stats) (b : Except Unit (List (BucketId × Nat)))
        (p : Except Unit (List (String × Nat))),
        (s = Except.error () ∨ b = Except.error () ∨ p = Except.error ())
          → combinedData s b p = Except.error ()) := by
  constructor
  · intro store m
    rfl
  · intro s b p h
    cases s <;> cases b <;> cases p <;> simp [combinedData] <;> simp_all

/-- C7 witness: a failing statistics sub-request makes the combined
response the server error even when the chart sub-requests succeed. -/
theorem combined_data_merge_witness :
    combinedData (Except.error ()) (Except.ok (barChart wStore 12))
      (Except.ok (pieChart wStore 12)) = Except.error () :=
  combined_data_merge.2 (Except.error ()) (Except.ok (barChart wStore 12))
    (Except.ok (pieChart wStore 12)) (Or.inl rfl)

/-- C8: the claim describes the intended list behaviour — return exactly
the interval records matching the search, quirky price-substring arm
included — but the code can never return any record page: the Mongoose
cast of the filter fails on the price regex condition on the Number path,
the find rejects, and the live handler answers the 500 text for every
request.  At the concrete failing input (January store with one record of
title alpha, description beta, price 150; search 150) the claimed reading
returns the record while the endpoint answers 500. -/
theorem transactions_price_cast_failure :
    listFindCastOk true = false
    ∧ findTransactionsResult cexSearchStore 1 "150" 1 10 = Except.error ()
    ∧ transactionsFirstHandler cexSearchStore (some 1) "150" 1 10
        = ⟨500, TxBody.errorText "Error fetching transactions", 1⟩
    ∧ transactionsClaimQuery cexSearchStore 1 "150" 1 10
        = [⟨"alpha", "beta", 150, ⟨2023, 1, 10⟩, true, "cat"⟩] := by
  refine ⟨by decide, rfl, by decide, by decide⟩

/-- C9: the claim relates the pages the list endpoint returns for
page 1 and page 2 of size 10 and page 1 of size 20.  The skip and limit
calls with offset (page minus 1) times perPage are in the code, but the
program never produces any page to relate: every one of the three
requests ends in the 500 text, because the find rejects at the cast of
the price regex condition. -/
theorem transactions_pagination_unreachable :
    (transactionsFirstHandler wStore (some 12) "" 1 10).status = 500
    ∧ (transactionsFirstHandler wStore (some 12) "" 2 10).status = 500
    ∧ (transactionsFirstHandler wStore (some 12) "" 1 20).status = 500
    ∧ (transactionsFirstHandler wStore (some 12) "" 1 10).body
        = TxBody.errorText "Error fetching transactions"
    ∧ (transactionsFirstHandler wStore (some 12) "" 2 10).body
        = TxBody.errorText "Error fetching transactions"
    ∧ findTransactionsResult wStore 12 "" 1 10 = Except.error () := by
  refine ⟨by decide, by decide, by decide, by decide, by decide, rfl⟩

/-- C10: the premise of the claim is right — the case-insensitive empty
pattern matches every title — but its conclusion is false of the code:
with search defaulted to the empty string the filter still carries the
price regex condition, whose Mongoose cast fails, so the endpoint
answers the 500 text instead of the paginated month interval (here the
two December records) the claim promises. -/
theorem transactions_empty_search_failure :
    (∀ t : String, ciContains t "" = true)
    ∧ transactionsFirstHandler wStore (some 12) "" 1 10
        = ⟨500, TxBody.errorText "Error fetching transactions", 1⟩
    ∧ paginate (monthRecords wStore 12) 1 10
        = [⟨"gadget", "red gadget", 150, ⟨2023, 12, 25⟩, true, "tools"⟩,
           ⟨"widget", "blue widget", 950, ⟨2023, 12, 3⟩, false, "decor"⟩] :=
  ⟨ciContains_empty, by decide, by decide⟩
